import Mathlib

/-!
Shallow embedding of the authentication and authorization core of the
ultra-rag repository (src/auth): API-key and bearer-token validation
(api_key_validator.py, jwt_validator.py), principal resolution and
authorization predicates (auth_manager.py), request-boundary enforcement
(auth_middleware.py), the database client behaviour relevant to them
(database_client.py), and the RBAC policy engine (rbac_manager.py).

Python strings are modelled as Lean Strings; the Python string operations
used by the source (strip, split, startswith, slicing) are defined below
over the underlying character list so that their algebraic properties are
provable.  Python dicts with string keys are association lists.  Python
sets of strings are Finsets.  Machine-opaque primitives (the SHA-256 hex
digest, jwt.decode, json.loads) are parameters of the model, collected in
an environment structure: the code under verification only ever inspects
their results, never their internals.
-/

namespace UltraRAG

/-! ### Python string primitives -/

/-- Characters removed by Python str.strip (whitespace). -/
def pyWs (c : Char) : Bool := c.isWhitespace

/-- Drop leading whitespace, as the first half of Python str.strip. -/
def trimLeftL (l : List Char) : List Char := l.dropWhile pyWs

/-- Drop trailing whitespace, as the second half of Python str.strip. -/
def trimRightL (l : List Char) : List Char := (l.reverse.dropWhile pyWs).reverse

/-- Python str.strip(): remove leading and trailing whitespace. -/
def pyStrip (s : String) : String := ⟨trimRightL (trimLeftL s.data)⟩

/-- Python s.split(sep) for a one-character separator: splits on every
occurrence, keeping empty pieces, and yields one empty piece for the
empty string. -/
def pySplit (s : String) (sep : Char) : List String :=
  (s.data.splitOn sep).map String.mk

/-- Python s.split(sep, 1): split at the first occurrence only.
Assumes the separator occurs (the callers check membership first). -/
def pySplit1 (s : String) (sep : Char) : String × String :=
  (⟨s.data.takeWhile (· ≠ sep)⟩, ⟨(s.data.dropWhile (· ≠ sep)).drop 1⟩)

/-- Python `sep in s` membership test for a one-character separator. -/
def pyContainsChar (s : String) (sep : Char) : Bool := s.data.contains sep

/-- Python s.startswith(prefix). -/
def pyStartsWith (s pre : String) : Bool := pre.data.isPrefixOf s.data

/-- Python s[n:] slicing. -/
def pyDrop (s : String) (n : Nat) : String := ⟨s.data.drop n⟩

/-- Python truthiness of an optional string: None and the empty string
are falsy. -/
def pyTruthyStr : Option String → Bool
  | none => false
  | some s => s ≠ ""

/-- Python `a or b` over optional strings, with empty-string falsiness. -/
def pyOrStr (a b : Option String) : Option String :=
  if pyTruthyStr a then a else b

/-- Dict lookup d.get(k) for string-keyed association lists. -/
def dictGet {α : Type} (d : List (String × α)) (k : String) : Option α :=
  (d.find? (fun p => p.1 == k)).map (·.2)

/-! ### Scope claims and normalization (jwt_validator._normalize_scopes,
api_key_validator._get_scopes_from_api_key) -/

/-- The dynamically-typed value of a scope claim or stored scopes column:
absent/null (or a value of any other type, which the code treats the same
way), a string, or a list whose elements are rendered with str(). -/
inductive ScopesVal where
  | null : ScopesVal
  | str (s : String) : ScopesVal
  | list (xs : List String) : ScopesVal
deriving DecidableEq, Repr

/-- Python truthiness of a scope claim: None, the empty string and the
empty list are falsy. -/
def scopesTruthy : ScopesVal → Bool
  | .null => false
  | .str s => s ≠ ""
  | .list xs => xs ≠ []

/-- Python `payload.get('scopes') or payload.get('scope')`. -/
def scopesOr (a b : ScopesVal) : ScopesVal :=
  if scopesTruthy a then a else b

/-- JWTValidator._normalize_scopes: absent/falsy claim gives the empty
set; a string is split on commas with each piece stripped and empty
pieces dropped; a list keeps its truthy (non-empty) elements, stripped. -/
def normalize_scopes : ScopesVal → Finset String
  | .null => ∅
  | .str s =>
      if s = "" then ∅
      else ((((pySplit s ',').map pyStrip).filter (· ≠ ""))).toFinset
  | .list xs =>
      if xs = [] then ∅
      else ((xs.filter (· ≠ "")).map pyStrip).toFinset

/-! ### RBAC policy engine (rbac_manager.py) -/

/-- rbac_manager.UserRole. -/
structure UserRole where
  name : String
  level : Int
  departments : List String
  security_levels : List Int
  permissions : List String
deriving DecidableEq, Repr

/-- rbac_manager.DocumentMetadata. -/
structure DocumentMetadata where
  document_id : String
  document_type : String
  department : String
  security_level : Int
  owner_id : String
  created_at : Int
  updated_at : Int
  allowed_roles : List String
  allowed_users : List String
  tags : List String
  custom_metadata : List (String × String)
deriving DecidableEq, Repr

/-- The role catalog RBACManager.roles: a dict from role name to role. -/
def RoleCatalog := List (String × UserRole)

/-- RBACManager._load_default_roles. -/
def load_default_roles : RoleCatalog :=
  [ ("admin", ⟨"admin", 4, ["*"], [1, 2, 3, 4], ["read", "write", "delete", "admin"]⟩),
    ("manager", ⟨"manager", 3, ["engineering", "sales", "marketing"], [1, 2, 3], ["read", "write"]⟩),
    ("analyst", ⟨"analyst", 2, ["engineering", "data"], [1, 2], ["read"]⟩),
    ("viewer", ⟨"viewer", 1, ["engineering"], [1], ["read"]⟩) ]

/-- The generator `(self.roles[role].level for role in user_roles if role
in self.roles)` feeding max(): levels of the user's roles that exist in
the catalog. -/
def catalogLevels (catalog : RoleCatalog) (user_roles : List String) : List Int :=
  (user_roles.filterMap (fun r => dictGet catalog r)).map (·.level)

/-- `max(...)` over that generator: none models the ValueError Python's
max() raises on an empty sequence. -/
def userMaxLevel (catalog : RoleCatalog) (user_roles : List String) : Option Int :=
  (catalogLevels catalog user_roles).max?

/-- RBACManager.can_access_document.  The Except models the ValueError
escaping when no user role is present in the catalog. -/
def can_access_document (catalog : RoleCatalog) (user_roles user_departments : List String)
    (user_id : String) (doc : DocumentMetadata) : Except String Bool :=
  match userMaxLevel catalog user_roles with
  | none => .error "max() arg is an empty sequence"
  | some user_max_level =>
    if doc.security_level > user_max_level then .ok false
    else if ¬ user_departments.contains "*" ∧ ¬ user_departments.contains doc.department then
      .ok false
    else if doc.allowed_roles ≠ [] ∧ ¬ user_roles.any (fun r => doc.allowed_roles.contains r) then
      .ok false
    else if doc.allowed_users ≠ [] ∧ ¬ doc.allowed_users.contains user_id then
      .ok false
    else .ok true

/-- One conjunct of the Milvus filter expression built by
RBACManager.build_milvus_filter. -/
inductive MCond where
  | secLe (n : Int) : MCond
  | deptIn (ds : List String) : MCond
  | rolesAny (rs : List String) : MCond
  | userContains (u : String) : MCond
deriving DecidableEq, Repr

/-- Text of one conjunct, exactly as the f-strings in
build_milvus_filter produce it. -/
def renderMCond : MCond → String
  | .secLe n => "security_level <= " ++ toString n
  | .deptIn ds =>
      "(" ++ String.intercalate " OR "
        (ds.map (fun d => "department == \"" ++ d ++ "\"")) ++ ")"
  | .rolesAny rs =>
      "(" ++ String.intercalate " OR "
        (rs.map (fun r => "JSON_CONTAINS(allowed_roles, \"" ++ r ++ "\")")) ++ ")"
  | .userContains u => "JSON_CONTAINS(allowed_users, \"" ++ u ++ "\")"

/-- The conditions list assembled by RBACManager.build_milvus_filter,
in order; the Except models the ValueError from max() on an empty
sequence. -/
def build_milvus_filter_conds (catalog : RoleCatalog) (user_roles user_departments : List String)
    (user_id : String) : Except String (List MCond) :=
  match userMaxLevel catalog user_roles with
  | none => .error "max() arg is an empty sequence"
  | some user_max_level =>
    let conditions := [MCond.secLe user_max_level]
    let conditions := conditions ++
      (if ¬ user_departments.contains "*" then [MCond.deptIn user_departments] else [])
    let role_conditions := user_roles
    let conditions := conditions ++
      (if role_conditions ≠ [] then [MCond.rolesAny role_conditions] else [])
    let conditions := conditions ++ [MCond.userContains user_id]
    .ok conditions

/-- RBACManager.build_milvus_filter: the conditions joined with " AND ". -/
def build_milvus_filter (catalog : RoleCatalog) (user_roles user_departments : List String)
    (user_id : String) : Except String String :=
  (build_milvus_filter_conds catalog user_roles user_departments user_id).map
    (fun cs => String.intercalate " AND " (cs.map renderMCond))

/-- Milvus evaluation of one conjunct against a document's fields:
numeric comparison, string equality, and JSON_CONTAINS as list
membership on the JSON-encoded allowed_roles / allowed_users columns. -/
def evalMCond (doc : DocumentMetadata) : MCond → Bool
  | .secLe n => doc.security_level ≤ n
  | .deptIn ds => ds.contains doc.department
  | .rolesAny rs => rs.any (fun r => doc.allowed_roles.contains r)
  | .userContains u => doc.allowed_users.contains u

/-- A document satisfies the compiled filter when every conjunct holds. -/
def evalFilter (doc : DocumentMetadata) (cs : List MCond) : Bool :=
  cs.all (evalMCond doc)

/-! ### Environment: configuration and machine-opaque primitives -/

/-- The claims of a successfully decoded token, as read back with
payload.get in JWTValidator.validate_token; none models an absent key. -/
structure JwtPayload where
  id : Option String := none
  sub : Option String := none
  role : Option String := none
  scopes : ScopesVal := .null
  scope : ScopesVal := .null
  organization_id : Option String := none
  orgId : Option String := none
  email : Option String := none
  username : Option String := none
  iat : Option Int := none
  exp : Option Int := none
deriving DecidableEq, Repr

/-- Outcome of json.loads on a scopes string: a raised
JSONDecodeError/TypeError, a successfully parsed non-list value, or a
parsed list whose elements are rendered with str(). -/
inductive JsonOut where
  | err : JsonOut
  | nonList : JsonOut
  | list (xs : List String) : JsonOut
deriving DecidableEq, Repr

/-- Configuration and machine-opaque primitives of the auth stack:
the SHA-256 hex digest, jwt.decode (none models every
ExpiredSignatureError / InvalidTokenError / other decode failure) and
json.loads are kept abstract — the source only ever inspects their
results; the DEV_* values model the environment-derived fields of
APIKeyValidator.__init__. -/
structure AuthEnv where
  sha256_hex : String → String
  jwt_decode : String → Option JwtPayload
  json_loads : String → JsonOut
  dev_api_key : String
  dev_user_id : String
  dev_role : String
  dev_org_id : String
  dev_scopes : Finset String

/-! ### Database client (database_client.py) -/

/-- The dict built by DatabaseClient.get_user_by_id: the selected
up_users columns plus the joined role names and optional organization.
The query selects no role_name column, so that key is absent (none) in
every row the client returns; api_key_validator nevertheless reads it
back with .get('role_name', default). -/
structure UserRow where
  id : Nat
  username : String
  email : String
  confirmed : Bool
  blocked : Bool
  roles : List String := []
  organization_id : Option String := none
  role_name : Option String := none
deriving DecidableEq, Repr

/-- The dict built by DatabaseClient.get_api_key_by_key_id: the selected
api_keys columns plus the owner id joined from api_keys_owner_links
(absent when there is no link).  The query selects no role column, so
that key is likewise always absent. -/
structure ApiKeyRow where
  id : Nat
  label : String := ""
  key_id : String
  secret_hash : String
  scopes : ScopesVal := .null
  status : String
  organization_id : Option String := none
  expires_at : Option Int := none
  last_used_at : Option Int := none
  owner_id : Option Nat := none
  role : Option String := none
deriving DecidableEq, Repr

/-- The backing store, with the current UTC instant used for expiry
comparison and a flag making the last-used UPDATE statement raise. -/
structure Db where
  users : List UserRow
  api_keys : List ApiKeyRow
  now : Int := 0
  update_last_used_raises : Bool := false

/-- Python int(s) on the decimal id strings the auth code passes around
(str() renderings of store ids and token subject claims): none models
the ValueError a non-numeric string raises.  (The builtin additionally
tolerates surrounding whitespace and a sign, which never occur in these
ids.) -/
def pyInt? (s : String) : Option Nat :=
  if s.data ≠ [] ∧ s.data.all Char.isDigit then
    some (s.data.foldl (fun n c => 10 * n + (c.toNat - Char.toNat '0')) 0)
  else none

/-- DatabaseClient.get_user_by_id: int(user_id) raising on a non-numeric
id is caught by the client and logged, returning None. -/
def get_user_by_id (db : Db) (user_id : String) : Option UserRow :=
  match pyInt? user_id with
  | none => none
  | some n => db.users.find? (fun u => u.id == n)

/-- DatabaseClient.get_api_key_by_key_id: the query only considers rows
with status = active. -/
def get_api_key_by_key_id (db : Db) (key_id : String) : Option ApiKeyRow :=
  db.api_keys.find? (fun ak => ak.key_id == key_id && ak.status == "active")

/-- The UPDATE api_keys SET last_used_at = NOW() execution inside
DatabaseClient.update_api_key_last_used. -/
def execute_update_last_used (db : Db) (_key_id : String) : Except String Unit :=
  if db.update_last_used_raises then .error "db error" else .ok ()

/-- DatabaseClient.update_api_key_last_used: the UPDATE runs inside
try/except; any failure is logged and swallowed, never re-raised. -/
def update_api_key_last_used (db : Db) (key_id : String) : Unit :=
  match execute_update_last_used db key_id with
  | .ok _ => ()
  | .error _ => ()

/-! ### Principals -/

/-- The user-info dict flowing out of the validators and
auth_manager: optional fields model keys that only some of the
producing code paths set. -/
structure Principal where
  user_id : String
  role : String
  scopes : Finset String
  organization_id : Option String := none
  email : Option String := none
  username : Option String := none
  api_key_id : Option String := none
  is_dev : Option Bool := none
  iat : Option Int := none
  exp : Option Int := none
  confirmed : Option Bool := none
  blocked : Option Bool := none
  auth_method : Option String := none
deriving DecidableEq

/-! ### API-key validation (api_key_validator.py) -/

/-- APIKeyValidator._get_default_scopes_for_role: the role-to-scopes
table, with a read-only default for unknown roles. -/
def get_default_scopes_for_role (role_name : String) : Finset String :=
  if role_name = "super_admin" then {"read", "write", "admin", "delete"}
  else if role_name = "admin" then {"read", "write", "admin"}
  else if role_name = "developer" then {"read", "write"}
  else if role_name = "viewer" then {"read"}
  else if role_name = "authenticated" then {"read"}
  else {"read"}

/-- The role-based fallback of _get_scopes_from_api_key:
api_key_data.get('role') or user_data.get('role_name', 'viewer'). -/
def api_key_fallback_scopes (ak : ApiKeyRow) (u : UserRow) : Finset String :=
  get_default_scopes_for_role
    (if pyTruthyStr ak.role then ak.role.getD "" else u.role_name.getD "viewer")

/-- APIKeyValidator._get_scopes_from_api_key: explicit scopes on the key
(list, JSON-encoded array string, or comma-separated string) win when
truthy; a parse success that is not a list falls through to the
role-based defaults. -/
def get_scopes_from_api_key (env : AuthEnv) (ak : ApiKeyRow) (u : UserRow) : Finset String :=
  if scopesTruthy ak.scopes then
    match ak.scopes with
    | .list xs => ((xs.filter (· ≠ "")).map pyStrip).toFinset
    | .str s =>
        match env.json_loads s with
        | .list ys => ((ys.filter (· ≠ "")).map pyStrip).toFinset
        | .nonList => api_key_fallback_scopes ak u
        | .err => (((pySplit s ',').map pyStrip).filter (· ≠ "")).toFinset
    | .null => api_key_fallback_scopes ak u
  else api_key_fallback_scopes ak u

/-- APIKeyValidator._verify_secret_hash: hex digest of the provided
secret compared with the stored hash. -/
def verify_secret_hash (env : AuthEnv) (secret stored_hash : String) : Bool :=
  env.sha256_hex secret == stored_hash

/-- APIKeyValidator._validate_database_api_key.  The enclosing
try/except returns None on any exception; the one exception the model
can hit — api_key_data['owner_id'] raising KeyError when the key has no
owner link — is mapped to none at that site. -/
def validate_database_api_key (env : AuthEnv) (db : Db) (api_key : String) : Option Principal :=
  if ¬ pyContainsChar api_key ':' then none
  else
    let key_id := (pySplit1 api_key ':').1
    let secret := (pySplit1 api_key ':').2
    match get_api_key_by_key_id db key_id with
    | none => none
    | some ak =>
      if (match ak.expires_at with
          | some e => decide (e < db.now)
          | none => false) then none
      else if ¬ verify_secret_hash env secret ak.secret_hash then none
      else
        let _ := update_api_key_last_used db key_id
        match ak.owner_id with
        | none => none
        | some oid =>
          match get_user_by_id db (toString oid) with
          | none => none
          | some u =>
            some { user_id := toString u.id,
                   role := if pyTruthyStr ak.role then ak.role.getD ""
                           else u.role_name.getD "authenticated",
                   scopes := get_scopes_from_api_key env ak u,
                   organization_id := pyOrStr ak.organization_id u.organization_id,
                   email := some u.email,
                   username := some u.username,
                   api_key_id := some key_id,
                   is_dev := some false }

/-- The fixed developer principal of the dev-bypass branch. -/
def dev_principal (env : AuthEnv) : Principal :=
  { user_id := env.dev_user_id, role := env.dev_role, scopes := env.dev_scopes,
    organization_id := some env.dev_org_id, is_dev := some true }

/-- APIKeyValidator.validate_api_key: empty or whitespace-only input is
rejected, the stripped key equal to the dev key short-circuits to the
developer principal, anything else goes to the database branch. -/
def validate_api_key (env : AuthEnv) (db : Db) (api_key : String) : Option Principal :=
  if api_key = "" ∨ pyStrip api_key = "" then none
  else
    let api_key := pyStrip api_key
    if api_key = env.dev_api_key then some (dev_principal env)
    else validate_database_api_key env db api_key

/-! ### Token validation (jwt_validator.py) -/

/-- JWTValidator.validate_token: jwt.decode is the abstract
env.jwt_decode; claim extraction and scope normalization follow the
source. -/
def validate_token (env : AuthEnv) (token : String) : Option Principal :=
  match env.jwt_decode token with
  | none => none
  | some payload =>
    match pyOrStr payload.id payload.sub with
    | none => none
    | some uid =>
      if uid = "" then none
      else
        some { user_id := uid,
               role := payload.role.getD "authenticated",
               scopes := normalize_scopes (scopesOr payload.scopes payload.scope),
               organization_id := pyOrStr payload.organization_id payload.orgId,
               email := payload.email,
               username := payload.username,
               iat := payload.iat,
               exp := payload.exp }

/-! ### Request authentication (auth_manager.py) -/

/-- Request headers as the plain string-keyed dict the manager receives. -/
abbrev Headers := List (String × String)

/-- AuthManager._try_jwt_auth: the bearer token from the
authorization/Authorization header, validated and merged with the
database user record. -/
def try_jwt_auth (env : AuthEnv) (db : Db) (headers : Headers) : Option Principal :=
  match pyOrStr (dictGet headers "authorization") (dictGet headers "Authorization") with
  | none => none
  | some auth_header =>
    if auth_header = "" ∨ ¬ pyStartsWith auth_header "Bearer " then none
    else
      let token := pyStrip (pyDrop auth_header 7)
      if token = "" then none
      else
        match validate_token env token with
        | none => none
        | some jwt_data =>
          match get_user_by_id db jwt_data.user_id with
          | none => none
          | some u =>
            some { jwt_data with
                   email := pyOrStr (some u.email) jwt_data.email,
                   username := pyOrStr (some u.username) jwt_data.username,
                   confirmed := some u.confirmed,
                   blocked := some u.blocked,
                   auth_method := some "jwt" }

/-- AuthManager._try_api_key_auth: the X-API-Key header, else an
ApiKey-scheme authorization header.  The dict returned by
validate_api_key never carries an 'owner_id' key (neither the dev
branch nor the database branch sets one), so the owner lookup guarded
by api_key_data.get('owner_id') never runs and username/email are
always overwritten with the defaults 'unknown' and ''. -/
def try_api_key_auth (env : AuthEnv) (db : Db) (headers : Headers) : Option Principal :=
  let api_key := dictGet headers "X-API-Key"
  let api_key :=
    if pyTruthyStr api_key then api_key
    else
      match pyOrStr (dictGet headers "authorization") (dictGet headers "Authorization") with
      | some auth_header =>
          if auth_header ≠ "" ∧ pyStartsWith auth_header "ApiKey " then
            some (pyStrip (pyDrop auth_header 7))
          else none
      | none => none
  match api_key with
  | none => none
  | some k =>
    if k = "" then none
    else
      match validate_api_key env db k with
      | none => none
      | some akp =>
        some { akp with
               username := some "unknown",
               email := some "",
               auth_method := some "api_key" }

/-- AuthManager.authenticate_request: JWT first, then API key, else
anonymous. -/
def authenticate_request (env : AuthEnv) (db : Db) (headers : Headers) : Option Principal :=
  match try_jwt_auth env db headers with
  | some jwt_result => some jwt_result
  | none => try_api_key_auth env db headers

/-- AuthManager.check_permissions: required scopes must all be held. -/
def check_permissions (user_data : Option Principal) (required_scopes : Finset String) : Bool :=
  match user_data with
  | none => false
  | some u => decide (required_scopes ⊆ u.scopes)

/-- AuthManager.check_role: the user's role must be among the required
roles. -/
def check_role (user_data : Option Principal) (required_roles : Finset String) : Bool :=
  match user_data with
  | none => false
  | some u => decide (u.role ∈ required_roles)

/-- AuthManager.check_organization: super_admin bypasses the
organization check. -/
def check_organization (user_data : Option Principal) (required_org_id : String) : Bool :=
  match user_data with
  | none => false
  | some u =>
    if u.role = "super_admin" then true
    else u.organization_id == some required_org_id

/-- AuthManager.is_authenticated: blocked users fail; JWT-authenticated
users must be confirmed. -/
def is_authenticated (user_data : Option Principal) : Bool :=
  match user_data with
  | none => false
  | some u =>
    if u.blocked.getD false then false
    else if u.auth_method == some "jwt" && ! u.confirmed.getD true then false
    else true

/-! ### Request-boundary enforcement (auth_middleware.py) -/

/-- The result dict of AuthMiddleware.validate_request. -/
structure ValidationOutcome where
  valid : Bool
  user_data : Option Principal
  error : Option String
deriving DecidableEq

/-- Python truthiness of an optional scope/role set: None and the empty
set are falsy. -/
def pyTruthySet (s : Option (Finset String)) : Bool :=
  match s with
  | none => false
  | some t => t ≠ ∅

/-- AuthMiddleware.validate_request. -/
def validate_request (env : AuthEnv) (db : Db) (headers : Headers)
    (required_scopes : Option (Finset String)) : ValidationOutcome :=
  match authenticate_request env db headers with
  | none => ⟨false, none, some "Authentication required"⟩
  | some user_data =>
    if ¬ is_authenticated (some user_data) then ⟨false, none, some "Authentication failed"⟩
    else if pyTruthySet required_scopes ∧
            ¬ check_permissions (some user_data) (required_scopes.getD ∅) then
      ⟨false, some user_data, some "Insufficient permissions"⟩
    else ⟨true, some user_data, none⟩

/-- The structured rejection built by
AuthMiddleware._create_error_response. -/
structure ErrorResponse where
  code : Int
  message : String
deriving DecidableEq, Repr

/-- The guard half of the wrapper produced by
AuthMiddleware.require_auth (lines 50-75 of auth_middleware.py),
separated from the wrapped call: either a structured error response or
the principal bound for the operation. -/
def require_auth_check (env : AuthEnv) (db : Db) (headers : Headers)
    (required_scopes required_roles : Option (Finset String)) : Except ErrorResponse Principal :=
  match authenticate_request env db headers with
  | none => .error ⟨401, "Authentication required"⟩
  | some user_data =>
    if ¬ is_authenticated (some user_data) then .error ⟨401, "Authentication failed"⟩
    else if pyTruthySet required_scopes ∧
            ¬ check_permissions (some user_data) (required_scopes.getD ∅) then
      .error ⟨403, "Insufficient permissions"⟩
    else if pyTruthySet required_roles ∧
            ¬ check_role (some user_data) (required_roles.getD ∅) then
      .error ⟨403, "Insufficient role"⟩
    else .ok user_data

deriving instance DecidableEq for Except

/-! ### Concrete evaluation fixtures -/

/-- A concrete environment: the digest is an arbitrary injective
stand-in (the source only compares digests for equality), no token
decodes, json.loads always raises, and the developer credentials are
the source defaults. -/
def testEnv : AuthEnv :=
  { sha256_hex := fun s => "sha256:" ++ s,
    jwt_decode := fun _ => none,
    json_loads := fun _ => .err,
    dev_api_key := "dev-api-key-12345",
    dev_user_id := "dev-user",
    dev_role := "super_admin",
    dev_org_id := "dev-org",
    dev_scopes := {"read", "write", "admin"} }

/-- The owner record of the end-to-end scenario. -/
def aliceUser : UserRow :=
  { id := 7, username := "alice", email := "alice@example.com",
    confirmed := true, blocked := false }

/-- The stored API key of the end-to-end scenario. -/
def abcKey : ApiKeyRow :=
  { id := 1, key_id := "abc123", secret_hash := testEnv.sha256_hex "s3cr3t",
    scopes := .list ["read", "write"], status := "active", owner_id := some 7 }

/-- The store of the end-to-end scenario. -/
def testDb : Db := { users := [aliceUser], api_keys := [abcKey] }

/-- A stored key whose id is "a" and whose secret is "b:c" — the secret
itself contains a colon. -/
def twoColonKey : ApiKeyRow :=
  { id := 2, key_id := "a", secret_hash := testEnv.sha256_hex "b:c",
    status := "active", owner_id := some 7 }

/-- Store for the colon-format counterexample. -/
def twoColonDb : Db := { users := [aliceUser], api_keys := [twoColonKey] }

/-- Environment whose token decoder accepts the token "tok123" for
subject 7 with scope claim ["read"]. -/
def jwtTestEnv : AuthEnv :=
  { testEnv with
    jwt_decode := fun t =>
      if t = "tok123" then some { id := some "7", scopes := .list ["read"] } else none }

/-- Headers carrying both a valid bearer token and a valid API key. -/
def bothHeaders : Headers :=
  [("Authorization", "Bearer tok123"), ("X-API-Key", "abc123:s3cr3t")]

/-- The principal the token path resolves for bothHeaders. -/
def jwtPrincipal : Principal :=
  { user_id := "7", role := "authenticated", scopes := {"read"},
    email := some "alice@example.com", username := some "alice",
    confirmed := some true, blocked := some false, auth_method := some "jwt" }

/-- Environment whose token decoder accepts the token "tokU" with the
capitalised scope claim ["Write"]. -/
def upperEnv : AuthEnv :=
  { testEnv with
    jwt_decode := fun t =>
      if t = "tokU" then some { id := some "7", scopes := .list ["Write"] } else none }

/-- A document explicitly allowing the admin role and user u1. -/
def allowDoc : DocumentMetadata :=
  { document_id := "doc2", document_type := "document", department := "engineering",
    security_level := 1, owner_id := "owner", created_at := 0, updated_at := 0,
    allowed_roles := ["admin"], allowed_users := ["u1"], tags := [], custom_metadata := [] }

/-- A document with empty allow-lists in the engineering department at
security level 1. -/
def sampleDoc : DocumentMetadata :=
  { document_id := "doc1", document_type := "document", department := "engineering",
    security_level := 1, owner_id := "owner", created_at := 0, updated_at := 0,
    allowed_roles := [], allowed_users := [], tags := [], custom_metadata := [] }

/-! ### Helper lemmas about stripping -/

theorem dropWhile_rdropWhile_dropWhile (l : List Char) :
    List.dropWhile pyWs (List.rdropWhile pyWs (List.dropWhile pyWs l)) =
      List.rdropWhile pyWs (List.dropWhile pyWs l) := by
  rw [List.dropWhile_eq_self_iff]
  intro hl
  have hx : List.rdropWhile pyWs (List.dropWhile pyWs l) ≠ [] :=
    List.ne_nil_of_length_pos hl
  have hm : List.dropWhile pyWs l ≠ [] := by
    intro h
    rw [h] at hx
    simp [List.rdropWhile] at hx
  simp only [List.get_eq_getElem]
  rw [← List.head_eq_getElem_zero hx]
  rw [(List.rdropWhile_prefix pyWs (List.dropWhile pyWs l)).head hx]
  simp [List.head_dropWhile_not pyWs l hm]

/-- Python str.strip is idempotent: a stripped string has no surrounding
whitespace left to remove. -/
theorem pyStrip_idem (s : String) : pyStrip (pyStrip s) = pyStrip s := by
  show String.mk (trimRightL (trimLeftL (trimRightL (trimLeftL s.data)))) =
       String.mk (trimRightL (trimLeftL s.data))
  have h1 : trimLeftL (trimRightL (trimLeftL s.data)) = trimRightL (trimLeftL s.data) :=
    dropWhile_rdropWhile_dropWhile s.data
  rw [h1]
  show String.mk (List.rdropWhile pyWs (List.rdropWhile pyWs (List.dropWhile pyWs s.data))) = _
  rw [List.rdropWhile_idempotent]
  rfl

/-- Every scope in the role-default table is already stripped. -/
theorem default_scopes_stripped (r s : String) (h : s ∈ get_default_scopes_for_role r) :
    pyStrip s = s := by
  unfold get_default_scopes_for_role at h
  repeat' split at h
  all_goals
    fin_cases h <;> decide

/-! ### Claim theorems -/

/-- C7: for every resolved (non-null) principal and every required scope
set R, check_permissions returns true exactly when R is a subset of the
principal's scopes; in particular it accepts the empty set and the
principal's own scope set. -/
theorem C7_check_permissions_subset (p : Principal) (R : Finset String) :
    (check_permissions (some p) R = true ↔ R ⊆ p.scopes) ∧
    check_permissions (some p) ∅ = true ∧
    check_permissions (some p) p.scopes = true := by
  refine ⟨?_, ?_, ?_⟩ <;> simp [check_permissions]

/-- C10: every synchronous authorization predicate returns false on a
null principal, whatever the requirement argument — including the empty
required-scope set, which a resolved principal would always satisfy. -/
theorem C10_null_principal_denied (R roles : Finset String) (org : String) :
    check_permissions none R = false ∧
    check_role none roles = false ∧
    check_organization none org = false ∧
    is_authenticated none = false ∧
    check_permissions none ∅ = false :=
  ⟨rfl, rfl, rfl, rfl, rfl⟩

/-- C2: evaluation of the end-to-end scenario.  With headers
X-API-Key: abc123:s3cr3t and the store holding the active key abc123
(hash of s3cr3t, scopes read/write, owner 7) and owner alice,
authenticate_request resolves userId "7", scopes read/write and the
api_key auth-method marker, and requiring the admin scope is rejected
with a 403 Insufficient permissions response — but the username in the
resolved principal is "unknown", not "alice": _try_api_key_auth looks
for an owner_id key the validator's result never contains and
overwrites the username the validator had already fetched. -/
theorem C2_scenario_eval :
    authenticate_request testEnv testDb [("X-API-Key", "abc123:s3cr3t")] =
      some { user_id := "7", role := "authenticated",
             scopes := {"read", "write"},
             email := some "", username := some "unknown",
             api_key_id := some "abc123", is_dev := some false,
             auth_method := some "api_key" } ∧
    require_auth_check testEnv testDb [("X-API-Key", "abc123:s3cr3t")]
        (some {"admin"}) none =
      .error ⟨403, "Insufficient permissions"⟩ :=
  ⟨by decide, by decide⟩

/-- C3: the outcome of validate_api_key does not depend on whether the
last-used UPDATE statement raises: DatabaseClient.update_api_key_last_used
catches and logs the failure, so a failing update never turns an
otherwise-successful key validation into a rejection. -/
theorem C3_last_used_update_failure_harmless (env : AuthEnv) (db : Db) (b : Bool) (k : String) :
    validate_api_key env { db with update_last_used_raises := b } k =
      validate_api_key env { db with update_last_used_raises := false } k := rfl

/-- C5 counterexample: "a:b:c" is non-empty, differs from the developer
bypass key and contains two colons, yet validate_api_key accepts it —
the code splits at the first colon only and never rejects extra
colons. -/
theorem C5_counterexample :
    ("a:b:c" ≠ "" ∧ "a:b:c" ≠ testEnv.dev_api_key ∧
      ("a:b:c").data.count ':' = 2) ∧
    (validate_api_key testEnv twoColonDb "a:b:c").isSome = true :=
  ⟨by decide, by decide⟩

/-- C5 amended: a non-empty, non-bypass key with zero colons is always
invalid; the key is split at the first colon into keyId and secret, so
a key with two or more colons may still validate (the secret simply
contains the extra colons). -/
theorem C5_amended_zero_colons_invalid (env : AuthEnv) (db : Db) (k : String)
    (h1 : pyStrip k ≠ "") (h2 : pyStrip k ≠ env.dev_api_key)
    (h3 : pyContainsChar (pyStrip k) ':' = false) :
    validate_api_key env db k = none := by
  have hk : k ≠ "" := by
    intro h
    subst h
    exact h1 rfl
  unfold validate_api_key
  rw [if_neg (by simp [hk, h1])]
  rw [if_neg h2]
  unfold validate_database_api_key
  simp [h3]

/-- C5 amended witness: a colon-free key is rejected. -/
theorem C5_amended_witness :
    (pyStrip "nocolonkey" ≠ "" ∧ pyStrip "nocolonkey" ≠ testEnv.dev_api_key ∧
      pyContainsChar (pyStrip "nocolonkey") ':' = false) ∧
    validate_api_key testEnv testDb "nocolonkey" = none :=
  ⟨⟨by decide, by decide, by decide⟩,
    C5_amended_zero_colons_invalid testEnv testDb "nocolonkey"
      (by decide) (by decide) (by decide)⟩

/-- C9: when none of the user's roles appears in the role catalog — for
example an empty role list — both can_access_document and
build_milvus_filter raise (Python's max() on an empty sequence) instead
of returning a denial or a filter, so the error branch is reachable at
the public interface. -/
theorem C9_unknown_roles_raise (catalog : RoleCatalog)
    (user_roles user_departments : List String) (user_id : String) (doc : DocumentMetadata)
    (h : ∀ r ∈ user_roles, dictGet catalog r = none) :
    can_access_document catalog user_roles user_departments user_id doc =
      .error "max() arg is an empty sequence" ∧
    build_milvus_filter catalog user_roles user_departments user_id =
      .error "max() arg is an empty sequence" := by
  have hlev : catalogLevels catalog user_roles = [] := by
    unfold catalogLevels
    rw [List.filterMap_eq_nil_iff.mpr h]
    rfl
  have hmax : userMaxLevel catalog user_roles = none := by
    unfold userMaxLevel
    rw [hlev]
    rfl
  unfold can_access_document build_milvus_filter build_milvus_filter_conds
  rw [hmax]
  exact ⟨rfl, rfl⟩

/-- C9 witness: an empty role list raises in both entry points. -/
theorem C9_witness :
    can_access_document load_default_roles [] ["*"] "u" sampleDoc =
      .error "max() arg is an empty sequence" ∧
    build_milvus_filter load_default_roles [] ["*"] "u" =
      .error "max() arg is an empty sequence" :=
  C9_unknown_roles_raise load_default_roles [] ["*"] "u" sampleDoc (by simp)

/-- C1 counterexample: with the default catalog, roles [admin],
departments [*] and user u1, a document with empty allowed_roles and
allowed_users is allowed by can_access_document but does not satisfy the
compiled filter, which unconditionally requires JSON_CONTAINS membership
in allowed_roles and allowed_users. -/
theorem C1_counterexample :
    can_access_document load_default_roles ["admin"] ["*"] "u1" sampleDoc = .ok true ∧
    (build_milvus_filter_conds load_default_roles ["admin"] ["*"] "u1").map
        (evalFilter sampleDoc) = .ok false :=
  ⟨by decide, by decide⟩

/-- C6: token-then-key precedence.  Whenever the token path resolves a
principal, authenticate_request returns exactly that principal, which
always carries the jwt auth-method marker; the API-key path is consulted
only when the token path yields nothing. -/
theorem C6_token_precedence (env : AuthEnv) (db : Db) (headers : Headers) :
    (∀ p, try_jwt_auth env db headers = some p →
        authenticate_request env db headers = some p ∧ p.auth_method = some "jwt") ∧
    (try_jwt_auth env db headers = none →
        authenticate_request env db headers = try_api_key_auth env db headers) := by
  constructor
  · intro p hp
    refine ⟨by simp [authenticate_request, hp], ?_⟩
    unfold try_jwt_auth at hp
    repeat' (first | (split at hp) | (simp only [] at hp))
    all_goals (try cases hp)
    all_goals rfl
  · intro hn
    simp [authenticate_request, hn]

/-- C6 witness: with a store key and a decodable token both present, the
token principal wins; with only the key, the key path is used. -/
theorem C6_witness :
    (try_jwt_auth jwtTestEnv testDb bothHeaders = some jwtPrincipal ∧
      authenticate_request jwtTestEnv testDb bothHeaders = some jwtPrincipal ∧
      jwtPrincipal.auth_method = some "jwt") ∧
    (try_jwt_auth jwtTestEnv testDb [("X-API-Key", "abc123:s3cr3t")] = none ∧
      authenticate_request jwtTestEnv testDb [("X-API-Key", "abc123:s3cr3t")] =
        try_api_key_auth jwtTestEnv testDb [("X-API-Key", "abc123:s3cr3t")] ∧
      (try_api_key_auth jwtTestEnv testDb [("X-API-Key", "abc123:s3cr3t")]).isSome = true) :=
  ⟨⟨by decide,
    (C6_token_precedence jwtTestEnv testDb bothHeaders).1 jwtPrincipal (by decide)⟩,
   ⟨by decide,
    (C6_token_precedence jwtTestEnv testDb [("X-API-Key", "abc123:s3cr3t")]).2 (by decide),
    by decide⟩⟩

/-- C8 counterexample: the same valid API key is accepted under the
exact header name X-API-Key but ignored under the lowercase spelling
x-api-key, so header lookup is not case-insensitive. -/
theorem C8_counterexample :
    authenticate_request testEnv testDb [("x-api-key", "abc123:s3cr3t")] = none ∧
    (authenticate_request testEnv testDb [("X-API-Key", "abc123:s3cr3t")]).isSome = true :=
  ⟨by decide, by decide⟩

/-- C8 amended: header lookup is exact-cased, not case-insensitive: the
authorization header is consulted only under the two spellings
"authorization" and "Authorization" (which are interchangeable for a
single-entry header map), the API-key header only under "X-API-Key";
a header map containing none of those three exact names — whatever other
casings it contains — authenticates as anonymous. -/
theorem C8_amended_exact_header_casing (env : AuthEnv) (db : Db) (headers : Headers) (v : String)
    (h1 : dictGet headers "authorization" = none)
    (h2 : dictGet headers "Authorization" = none)
    (h3 : dictGet headers "X-API-Key" = none) :
    authenticate_request env db headers = none ∧
    authenticate_request env db [("authorization", v)] =
      authenticate_request env db [("Authorization", v)] := by
  constructor
  · unfold authenticate_request try_jwt_auth try_api_key_auth
    rw [h1, h2, h3]
    rfl
  · by_cases hv : v = ""
    · subst hv
      rfl
    · unfold authenticate_request try_jwt_auth try_api_key_auth
      simp [dictGet, pyOrStr, pyTruthyStr, hv]

/-- C8 amended witness: differently-cased spellings of both header names
are ignored, and the two recognised authorization spellings agree. -/
theorem C8_amended_witness :
    (dictGet ([("AUTHORIZATION", "Bearer tok123"), ("x-api-key", "abc123:s3cr3t")] : Headers)
        "authorization" = none ∧
      dictGet ([("AUTHORIZATION", "Bearer tok123"), ("x-api-key", "abc123:s3cr3t")] : Headers)
        "Authorization" = none ∧
      dictGet ([("AUTHORIZATION", "Bearer tok123"), ("x-api-key", "abc123:s3cr3t")] : Headers)
        "X-API-Key" = none) ∧
    authenticate_request jwtTestEnv testDb
        [("AUTHORIZATION", "Bearer tok123"), ("x-api-key", "abc123:s3cr3t")] = none ∧
    authenticate_request jwtTestEnv testDb [("authorization", "Bearer tok123")] =
      authenticate_request jwtTestEnv testDb [("Authorization", "Bearer tok123")] :=
  ⟨⟨by decide, by decide, by decide⟩,
    (C8_amended_exact_header_casing jwtTestEnv testDb
      [("AUTHORIZATION", "Bearer tok123"), ("x-api-key", "abc123:s3cr3t")] "Bearer tok123"
      (by decide) (by decide) (by decide)).1,
    (C8_amended_exact_header_casing jwtTestEnv testDb
      [("AUTHORIZATION", "Bearer tok123"), ("x-api-key", "abc123:s3cr3t")] "Bearer tok123"
      (by decide) (by decide) (by decide)).2⟩

/-- C4 counterexample: a token whose scope claim is the list ["Write"]
resolves to a principal whose scope set contains "Write" — an element
with an uppercase letter — so scopes are not lowercased. -/
theorem C4_counterexample :
    (authenticate_request upperEnv testDb [("Authorization", "Bearer tokU")]).map
        Principal.scopes = some {"Write"} ∧
    "Write".data.any Char.isUpper = true :=
  ⟨by decide, by decide⟩

/-- C4 amended: every element of a scope set produced by either
normalization path (the token-claim normalizer or the API-key scope
resolver, on string, JSON-array or list input, including the role-default
fallback) is trimmed — stripping it again changes nothing — but letter
case is preserved, not folded to lowercase. -/
theorem C4_amended_scopes_trimmed (c : ScopesVal) (env : AuthEnv) (ak : ApiKeyRow)
    (u : UserRow) (s t : String)
    (hs : s ∈ normalize_scopes c) (ht : t ∈ get_scopes_from_api_key env ak u) :
    pyStrip s = s ∧ pyStrip t = t := by
  constructor
  · cases c with
    | null => simp [normalize_scopes] at hs
    | str str =>
        simp only [normalize_scopes] at hs
        split at hs
        · simp at hs
        · rw [List.mem_toFinset] at hs
          have hs2 := List.mem_of_mem_filter hs
          obtain ⟨x, -, rfl⟩ := List.mem_map.mp hs2
          exact pyStrip_idem x
    | list xs =>
        simp only [normalize_scopes] at hs
        split at hs
        · simp at hs
        · rw [List.mem_toFinset] at hs
          obtain ⟨x, -, rfl⟩ := List.mem_map.mp hs
          exact pyStrip_idem x
  · unfold get_scopes_from_api_key at ht
    split at ht
    · split at ht
      · rw [List.mem_toFinset] at ht
        obtain ⟨x, -, rfl⟩ := List.mem_map.mp ht
        exact pyStrip_idem x
      · split at ht
        · rw [List.mem_toFinset] at ht
          obtain ⟨x, -, rfl⟩ := List.mem_map.mp ht
          exact pyStrip_idem x
        · exact default_scopes_stripped _ t ht
        · rw [List.mem_toFinset] at ht
          have ht2 := List.mem_of_mem_filter ht
          obtain ⟨x, -, rfl⟩ := List.mem_map.mp ht2
          exact pyStrip_idem x
      · exact default_scopes_stripped _ t ht
    · exact default_scopes_stripped _ t ht

/-- C4 amended witness: a concrete scope from each path is trimmed. -/
theorem C4_amended_witness :
    ("read" ∈ normalize_scopes (.str " read , write ") ∧
      "read" ∈ get_scopes_from_api_key testEnv abcKey aliceUser) ∧
    (pyStrip "read" = "read" ∧ pyStrip "read" = "read") :=
  ⟨⟨by decide, by decide⟩,
    C4_amended_scopes_trimmed (.str " read , write ") testEnv abcKey aliceUser "read" "read"
      (by decide) (by decide)⟩

/-- C1 amended: the compiled push-down filter is sound but strictly
stronger than the in-process check: every document whose fields satisfy
the filter expression is accepted by can_access_document, but not
conversely — equivalence fails whenever a document leaves allowed_roles
or allowed_users empty, because the filter unconditionally requires
JSON_CONTAINS membership in both. -/
theorem C1_amended_filter_implies_access (catalog : RoleCatalog)
    (user_roles user_departments : List String) (user_id : String)
    (doc : DocumentMetadata) (cs : List MCond)
    (hb : build_milvus_filter_conds catalog user_roles user_departments user_id = .ok cs)
    (he : evalFilter doc cs = true) :
    can_access_document catalog user_roles user_departments user_id doc = .ok true := by
  unfold build_milvus_filter_conds at hb
  cases hmax : userMaxLevel catalog user_roles with
  | none => rw [hmax] at hb; cases hb
  | some m =>
    rw [hmax] at hb
    simp only [] at hb
    cases hb
    have hur : user_roles ≠ [] := by
      intro h
      subst h
      simp [userMaxLevel, catalogLevels] at hmax
    unfold can_access_document
    rw [hmax]
    rw [if_pos hur] at he
    by_cases hstar : user_departments.contains "*"
    · simp only [evalFilter, List.all_append, List.all_cons, List.all_nil, hstar,
        evalMCond, Bool.and_eq_true, decide_eq_true_eq, not_true, ite_false,
        Bool.and_true, and_true] at he
      obtain ⟨⟨hsec, hroles⟩, huser⟩ := he
      have hstar2 : "*" ∈ user_departments := by simpa using hstar
      have huser2 : user_id ∈ doc.allowed_users := by simpa using huser
      have hroles2 : ∃ r ∈ user_roles, r ∈ doc.allowed_roles := by
        simpa using hroles
      obtain ⟨r, hr1, hr2⟩ := hroles2
      simp [not_lt.mpr hsec, hstar2, huser2]
      exact fun _ => ⟨r, hr1, hr2⟩
    · simp only [evalFilter, List.all_append, List.all_cons, List.all_nil, hstar,
        evalMCond, Bool.and_eq_true, decide_eq_true_eq, not_false_iff, ite_true,
        Bool.and_true, and_true] at he
      obtain ⟨⟨⟨hsec, hdept⟩, hroles⟩, huser⟩ := he
      have hdept2 : doc.department ∈ user_departments := by
        simpa [evalMCond] using hdept
      have huser2 : user_id ∈ doc.allowed_users := by simpa using huser
      have hroles2 : ∃ r ∈ user_roles, r ∈ doc.allowed_roles := by
        simpa using hroles
      obtain ⟨r, hr1, hr2⟩ := hroles2
      simp [not_lt.mpr hsec, hdept2, huser2]
      exact fun _ => ⟨r, hr1, hr2⟩

/-- C1 amended witness: a document that satisfies the compiled filter is
accepted by the in-process check. -/
theorem C1_amended_witness :
    (build_milvus_filter_conds load_default_roles ["admin"] ["*"] "u1" =
        .ok [.secLe 4, .rolesAny ["admin"], .userContains "u1"] ∧
      evalFilter allowDoc [.secLe 4, .rolesAny ["admin"], .userContains "u1"] = true) ∧
    can_access_document load_default_roles ["admin"] ["*"] "u1" allowDoc = .ok true :=
  ⟨⟨by decide, by decide⟩,
    C1_amended_filter_implies_access load_default_roles ["admin"] ["*"] "u1" allowDoc
      [.secLe 4, .rolesAny ["admin"], .userContains "u1"] (by decide) (by decide)⟩

end UltraRAG
